import Mathlib

/-!
Shallow embedding of the glasses-finder eligibility / recommendation logic.

The definitions below are translated from the repository sources:
* the refactored `GlassesService` (static tables, `validateDCZipCode`,
  `_validateInputs`, `_determineTier`, `assessEligibility`,
  `_getRelevantResources`, `getPersonalizedRecommendations`, read accessors),
* the legacy `GlassesService` (its catalog data and its `getAllGlasses`),
* the `GlassesImageService` (`hashString`, `getGlassesSearchQueries`,
  `generateImage`).

JavaScript numbers that hold integer values are modelled as `Int`
(validation checks `Number.isInteger`, which holds by construction here).
Timestamps (`new Date().toISOString()`) are modelled as explicit string
parameters.  The memoizing caches (`this._cache`, a `Map`) are modelled as
association lists threaded through the functions.
-/

namespace GlassesFinder

/-- A catalog item, with the raw fields of the source data
(`site`, `name`, `numeric_price`, `features`, `url`, `frame_style`,
`material`). -/
structure Glasses where
  site : String
  name : String
  numeric_price : Int
  features : String
  url : String
  frame_style : String
  material : String
deriving DecidableEq

/-- An assistance-program record (`name` plus optional
`description` / `phone` / `address` / `website` / `eligibility` fields). -/
structure Resource where
  name : String
  description : Option String := none
  phone : Option String := none
  address : Option String := none
  website : Option String := none
  eligibility : Option String := none
deriving DecidableEq

/-- A JavaScript value passed to `validateDCZipCode`: either a string or
some non-string value (number, null, undefined, object, ...). -/
inductive JSVal where
  | str (s : String)
  | other
deriving DecidableEq

/-- Whitespace characters removed by JavaScript `String.prototype.trim`
(WhiteSpace and LineTerminator code points). -/
def jsWhitespace (c : Char) : Bool :=
  c ∈ ['\t', '\n', (Char.ofNat 0xb), (Char.ofNat 0xc), '\r', ' ',
    (Char.ofNat 0xa0), (Char.ofNat 0x1680), (Char.ofNat 0x2000),
    (Char.ofNat 0x2001), (Char.ofNat 0x2002), (Char.ofNat 0x2003),
    (Char.ofNat 0x2004), (Char.ofNat 0x2005), (Char.ofNat 0x2006),
    (Char.ofNat 0x2007), (Char.ofNat 0x2008), (Char.ofNat 0x2009),
    (Char.ofNat 0x200a), (Char.ofNat 0x2028), (Char.ofNat 0x2029),
    (Char.ofNat 0x202f), (Char.ofNat 0x205f), (Char.ofNat 0x3000),
    (Char.ofNat 0xfeff)]

/-- JavaScript `String.prototype.trim`: strip leading and trailing
whitespace. -/
def jsTrim (s : String) : String :=
  String.mk (((s.data.dropWhile jsWhitespace).reverse.dropWhile jsWhitespace).reverse)

/-- The static `VALID_DC_ZIP_CODES` allow-list (refactored service,
`App.jsx` lines 37-43). -/
def VALID_DC_ZIP_CODES : List String :=
  ["20001", "20002", "20003", "20004", "20005", "20006", "20007", "20008",
   "20009", "20010", "20011", "20012", "20015", "20016", "20017", "20018",
   "20019", "20020", "20024", "20026", "20027", "20029", "20030", "20032",
   "20036", "20037", "20052", "20053", "20056", "20057", "20064", "20066",
   "20071", "20090", "20091", "20201", "20204", "20228", "20240", "20260"]

/-- `validateDCZipCode(zipCode)`: `false` for non-strings, otherwise set
membership of the trimmed string in the allow-list. -/
def validateDCZipCode (zipCode : JSVal) : Bool :=
  match zipCode with
  | .str s => VALID_DC_ZIP_CODES.contains (jsTrim s)
  | .other => false

/-- The static `MEDICAID_INCOME_LIMITS` table, a JS object keyed by the
numbers 1..8; lookup of any other key yields `undefined`, modelled as
`none`. -/
def MEDICAID_INCOME_LIMITS (n : Int) : Option Int :=
  if n = 1 then some 20783
  else if n = 2 then some 28207
  else if n = 3 then some 35632
  else if n = 4 then some 43056
  else if n = 5 then some 50481
  else if n = 6 then some 57905
  else if n = 7 then some 65330
  else if n = 8 then some 72754
  else none

/-- The data `_determineTier` returns: a tier key, its display name, its
budget range and the looked-up medicaid limit. -/
structure TierResult where
  tier : String
  name : String
  budgetRange : Int × Int
  medicaidLimit : Option Int
deriving DecidableEq

/-- `_determineTier(annualIncome, householdSize)`: look up
`MEDICAID_INCOME_LIMITS[Math.min(householdSize, 8)]` and compare income
against `limit * multiplier` for the `TIER_CONFIG` entries in insertion
order (MEDICAID_ELIGIBLE, LOW_INCOME_GAP, MODERATE_INCOME; ANY_INCOME is
skipped and used as the fallthrough).  If the table lookup yields
`undefined`, every comparison against `NaN` is false, so the loop falls
through to ANY_INCOME with `medicaidLimit` undefined. -/
def _determineTier (annualIncome : Int) (householdSize : Int) : TierResult :=
  match MEDICAID_INCOME_LIMITS (min householdSize 8) with
  | some limit =>
      if annualIncome ≤ limit * 1 then
        ⟨"medicaid_eligible", "Medicaid Eligible", (0, 50), some limit⟩
      else if annualIncome ≤ limit * 2 then
        ⟨"low_income_gap", "Low-Income Gap", (0, 100), some limit⟩
      else if annualIncome ≤ limit * 3 then
        ⟨"moderate_income", "Moderate Income", (50, 200), some limit⟩
      else
        ⟨"any_income", "Any Income", (0, 500), some limit⟩
  | none => ⟨"any_income", "Any Income", (0, 500), none⟩

/-- Position of a tier key in the income order
medicaid_eligible < low_income_gap < moderate_income < any_income. -/
def tierRank (tier : String) : Nat :=
  if tier = "medicaid_eligible" then 0
  else if tier = "low_income_gap" then 1
  else if tier = "moderate_income" then 2
  else 3

/-- Validation message for an out-of-range household size. -/
def householdSizeError : String :=
  "Household size must be between 1 and 15 people"

/-- Validation message for a negative income. -/
def annualIncomeError : String :=
  "Annual income must be a positive number"

/-- Validation message for a rejected zip code (interpolates the value). -/
def zipCodeError (zipCode : String) : String :=
  "Invalid D.C. zip code: " ++ zipCode ++
    ". Must be a valid D.C. zip code (e.g., 20001, 20009, 20036)"

/-- `_validateInputs(householdSize, annualIncome, zipCode)`: collect the
messages of all violated checks into one list (the JS code pushes onto
`errors` and throws `errors.join('; ')` when non-empty).  The
`Number.isInteger` parts of the checks hold by construction for `Int`
inputs. -/
def _validateInputs (householdSize annualIncome : Int) (zipCode : String) :
    List String :=
  (if householdSize < 1 ∨ householdSize > 15 then [householdSizeError] else []) ++
  (if annualIncome < 0 then [annualIncomeError] else []) ++
  (if validateDCZipCode (.str zipCode) then [] else [zipCodeError zipCode])

/-- The static `medicaid_providers` list of `_initializeDCResources`. -/
def medicaid_providers : List Resource :=
  [{ name := "DC Medicaid Vision Benefits",
     description := some "Covers eye exams and glasses for Medicaid recipients",
     phone := some "1-800-635-1663",
     website := some "https://dhcf.dc.gov" },
   { name := "Martha\x27s Table Eye Care",
     description := some "Free eye exams and glasses for low-income families",
     address := some "2114 14th St NW, Washington, DC 20009",
     phone := some "(202) 328-6608" }]

/-- The static `discount_programs` list of `_initializeDCResources`. -/
def discount_programs : List Resource :=
  [{ name := "Warby Parker Pupils Project",
     description := some "Provides glasses to students and low-income individuals",
     eligibility := some "Students and income-qualified individuals" },
   { name := "OneSight",
     description := some "Mobile clinics providing free eye care in D.C.",
     website := some "https://onesight.org" }]

/-- The static `local_stores` list of `_initializeDCResources`. -/
def local_stores : List Resource :=
  [{ name := "LensCrafters - Dupont Circle",
     address := some "1150 Connecticut Ave NW, Washington, DC 20036",
     phone := some "(202) 822-2020" },
   { name := "Pearle Vision - Columbia Heights",
     address := some "3100 14th St NW, Washington, DC 20010",
     phone := some "(202) 387-7327" }]

/-- `_getRelevantResources(tier)`: the shared discount-program plus
local-store list, with the medicaid providers prepended for the
`medicaid_eligible` tier only. -/
def _getRelevantResources (tier : String) : List Resource :=
  let allResources := discount_programs ++ local_stores
  if tier = "medicaid_eligible" then medicaid_providers ++ allResources
  else allResources

/-- The object `assessEligibility` returns (frozen in the source). -/
structure Eligibility where
  tier : String
  tierName : String
  budgetRange : Int × Int
  householdSize : Int
  annualIncome : Int
  zipCode : String
  medicaidLimit : Option Int
  resources : List Resource
  assessedAt : String
deriving DecidableEq

/-- The cache key `eligibility-h-i-zip` built by `assessEligibility`. -/
def eligibilityCacheKey (householdSize annualIncome : Int) (zipCode : String) :
    String :=
  "eligibility-" ++ toString householdSize ++ "-" ++ toString annualIncome ++
    "-" ++ zipCode

/-- `assessEligibility(householdSize, annualIncome, zipCode)` of the
refactored service: check the cache first, then validate (throwing the
joined error messages), then determine the tier, assemble the resources,
build the frozen result (stamped with the current time, modelled by the
explicit parameter `now`) and store it in the cache. -/
def assessEligibility (householdSize annualIncome : Int) (zipCode : String)
    (now : String) (cache : List (String × Eligibility)) :
    Except String (Eligibility × List (String × Eligibility)) :=
  let cacheKey := eligibilityCacheKey householdSize annualIncome zipCode
  match cache.lookup cacheKey with
  | some e => .ok (e, cache)
  | none =>
      let errors := _validateInputs householdSize annualIncome zipCode
      if errors.isEmpty then
        let tierConfig := _determineTier annualIncome householdSize
        let resources := _getRelevantResources tierConfig.tier
        let eligibility : Eligibility :=
          { tier := tierConfig.tier
            tierName := tierConfig.name
            budgetRange := tierConfig.budgetRange
            householdSize := householdSize
            annualIncome := annualIncome
            zipCode := zipCode
            medicaidLimit := tierConfig.medicaidLimit
            resources := resources
            assessedAt := now }
        .ok (eligibility, (cacheKey, eligibility) :: cache)
      else
        .error (String.intercalate "; " errors)

/-- The price comparison used to sort recommendations: the JS stable sort
with comparator `a.numeric_price - b.numeric_price` orders by
`numeric_price` ascending. -/
def priceLE (a b : Glasses) : Prop :=
  a.numeric_price ≤ b.numeric_price

instance : DecidableRel priceLE := fun a b =>
  inferInstanceAs (Decidable (a.numeric_price ≤ b.numeric_price))

instance : IsTotal Glasses priceLE :=
  ⟨fun a b => Int.le_total a.numeric_price b.numeric_price⟩

instance : IsTrans Glasses priceLE :=
  ⟨fun _ _ _ hab hbc => Int.le_trans hab hbc⟩

/-- `_getPriorityMessage(tier)`: one fixed string per tier key, defaulting
to the `any_income` message. -/
def _getPriorityMessage (tier : String) : String :=
  if tier = "medicaid_eligible" then
    "🏥 You may qualify for free glasses through D.C. Medicaid! Contact the providers listed below first."
  else if tier = "low_income_gap" then
    "💙 You\x27re in the coverage gap - check discount programs and consider the most affordable options below."
  else if tier = "moderate_income" then
    "💚 You have moderate income flexibility - focus on value and quality."
  else
    "✨ You have budget flexibility - explore all options for the best fit!"

/-- The object `getPersonalizedRecommendations` returns. -/
structure Recommendations where
  tier : String
  tierName : String
  budgetRange : String
  totalOptions : Nat
  topRecommendations : List Glasses
  allRecommendations : List Glasses
  priorityMessage : String
  generatedAt : String
deriving DecidableEq

/-- The eligibility argument as `getPersonalizedRecommendations` reads it:
only `tier`, `tierName` and `budgetRange` are consumed; `budgetRange` may
be absent (`none` models a falsy `eligibility.budgetRange`). -/
structure EligibilityArg where
  tier : String
  tierName : String
  budgetRange : Option (Int × Int)
deriving DecidableEq

/-- `getPersonalizedRecommendations(eligibility)` of the refactored
service, parametrized by the service catalog `this._glassesData`: guard
against a missing eligibility object or a missing `budgetRange`, check the
cache, then filter the catalog to the inclusive budget window and sort it
ascending by price (JS `Array.prototype.sort` is stable, modelled by the
stable `List.insertionSort`). -/
def getPersonalizedRecommendations (glassesData : List Glasses)
    (eligibility : Option EligibilityArg) (now : String)
    (cache : List (String × Recommendations)) :
    Except String (Recommendations × List (String × Recommendations)) :=
  match eligibility with
  | none => .error "Invalid eligibility data provided"
  | some e =>
      match e.budgetRange with
      | none => .error "Invalid eligibility data provided"
      | some (budgetMin, budgetMax) =>
          let cacheKey := "recommendations-" ++ e.tier ++ "-" ++
            toString budgetMin ++ "-" ++ toString budgetMax
          match cache.lookup cacheKey with
          | some r => .ok (r, cache)
          | none =>
              let suitableGlasses :=
                (glassesData.filter (fun glasses =>
                  budgetMin ≤ glasses.numeric_price ∧
                    glasses.numeric_price ≤ budgetMax)).insertionSort priceLE
              let recommendations : Recommendations :=
                { tier := e.tier
                  tierName := e.tierName
                  budgetRange := "$" ++ toString budgetMin ++ "-$" ++ toString budgetMax
                  totalOptions := suitableGlasses.length
                  topRecommendations := suitableGlasses.take 10
                  allRecommendations := suitableGlasses
                  priorityMessage := _getPriorityMessage e.tier
                  generatedAt := now }
              .ok (recommendations, (cacheKey, recommendations) :: cache)

/-- The raw catalog data of the refactored service (`App.jsx`
`_initializeGlassesData`, 8 Warby Parker items). -/
def refactoredCatalog : List Glasses :=
  [{ site := "Warby Parker", name := "Felix", numeric_price := 95,
     features := "Square acetate frame, modern design, comfortable fit",
     url := "https://www.warbyparker.com/eyeglasses/felix/jet-black",
     frame_style := "square", material := "Acetate" },
   { site := "Warby Parker", name := "Hardy", numeric_price := 95,
     features := "Rectangular acetate frame, classic styling, durable construction",
     url := "https://www.warbyparker.com/eyeglasses/hardy/whiskey-tortoise",
     frame_style := "rectangular", material := "Acetate" },
   { site := "Warby Parker", name := "Percey", numeric_price := 95,
     features := "Metal frame, blue light filtering, adjustable nose pads",
     url := "https://www.warbyparker.com/eyeglasses/percey/polished-gold",
     frame_style := "round", material := "Metal" },
   { site := "Warby Parker", name := "Chamberlain", numeric_price := 145,
     features := "Titanium frame, progressive lenses, lightweight design",
     url := "https://www.warbyparker.com/eyeglasses/chamberlain/brushed-navy",
     frame_style := "rectangular", material := "Titanium" },
   { site := "Warby Parker", name := "Rafael", numeric_price := 145,
     features := "Rounded lenses, slender-yet-sturdy construction, endlessly versatile pairing",
     url := "https://www.warbyparker.com/eyeglasses/rafael/jet-black",
     frame_style := "round", material := "Stainless Steel" },
   { site := "Warby Parker", name := "Durand", numeric_price := 45,
     features := "Basic acetate frame, single vision, durable construction",
     url := "https://www.warbyparker.com/eyeglasses/durand/jet-black",
     frame_style := "square", material := "Acetate" },
   { site := "Warby Parker", name := "Burke", numeric_price := 35,
     features := "Simple plastic frame, reading glasses, comfortable fit",
     url := "https://www.warbyparker.com/eyeglasses/burke/matte-black",
     frame_style := "rectangular", material := "Plastic" },
   { site := "Warby Parker", name := "Caldwell", numeric_price := 25,
     features := "Ultra-budget frame, basic lenses, essential eyewear",
     url := "https://www.warbyparker.com/eyeglasses/caldwell/crystal-clear",
     frame_style := "round", material := "Plastic" }]

/-- The raw catalog data of the legacy service (`part_001`
`_initializeGlassesData`, 8 Warby Parker items with prices
95, 95, 145, 45, 35, 25, 65, 85). -/
def legacyCatalog : List Glasses :=
  [{ site := "Warby Parker", name := "Griffin", numeric_price := 95,
     features := "Acetate frame, prescription lenses available, anti-reflective coating",
     url := "https://www.warbyparker.com/eyeglasses/griffin/whiskey-tortoise",
     frame_style := "round", material := "Acetate" },
   { site := "Warby Parker", name := "Percey", numeric_price := 95,
     features := "Metal frame, blue light filtering, adjustable nose pads",
     url := "https://www.warbyparker.com/eyeglasses/percey/polished-gold",
     frame_style := "square", material := "Metal" },
   { site := "Warby Parker", name := "Chamberlain", numeric_price := 145,
     features := "Titanium frame, progressive lenses, lightweight design",
     url := "https://www.warbyparker.com/eyeglasses/chamberlain/brushed-navy",
     frame_style := "aviator", material := "Titanium" },
   { site := "Warby Parker", name := "Durand", numeric_price := 45,
     features := "Basic acetate frame, single vision, durable construction",
     url := "https://www.warbyparker.com/eyeglasses/durand/jet-black",
     frame_style := "rectangular", material := "Acetate" },
   { site := "Warby Parker", name := "Burke", numeric_price := 35,
     features := "Simple plastic frame, reading glasses, comfortable fit",
     url := "https://www.warbyparker.com/eyeglasses/burke/matte-black",
     frame_style := "round", material := "Plastic" },
   { site := "Warby Parker", name := "Caldwell", numeric_price := 25,
     features := "Ultra-budget frame, basic lenses, essential eyewear",
     url := "https://www.warbyparker.com/eyeglasses/caldwell/crystal-clear",
     frame_style := "classic", material := "Plastic" },
   { site := "Warby Parker", name := "Haskell", numeric_price := 65,
     features := "Mid-range acetate, anti-scratch coating, stylish design",
     url := "https://www.warbyparker.com/eyeglasses/haskell/rosewater",
     frame_style := "cat-eye", material := "Acetate" },
   { site := "Warby Parker", name := "Welty", numeric_price := 85,
     features := "Premium acetate frame, prescription ready, modern style",
     url := "https://www.warbyparker.com/eyeglasses/welty/eastern-bluebird-fade",
     frame_style := "square", material := "Acetate" }]

/-! ### Stability of the recommendation sort

JavaScript `Array.prototype.sort` is required to be stable, and
`List.insertionSort` is stable; the lemmas below establish the
characterizing property that filtering by any fixed price commutes with
the sort. -/

/-- Inserting `x` into `l` keeps, among the items of any fixed price `v`,
the original order: the price-`v` items of the result are `x` prepended
(when `x` has price `v`) to the price-`v` items of `l`. -/
theorem filter_price_orderedInsert (v : Int) (x : Glasses) (l : List Glasses) :
    (l.orderedInsert priceLE x).filter (fun g => g.numeric_price = v) =
      if x.numeric_price = v then
        x :: l.filter (fun g => g.numeric_price = v)
      else l.filter (fun g => g.numeric_price = v) := by
  induction l with
  | nil =>
      by_cases hx : x.numeric_price = v <;>
        simp [List.orderedInsert, List.filter_cons, hx]
  | cons y ys ih =>
      rw [List.orderedInsert]
      by_cases hxy : priceLE x y
      · rw [if_pos hxy]
        by_cases hx : x.numeric_price = v <;>
          simp [List.filter_cons, hx]
      · rw [if_neg hxy]
        have hlt : y.numeric_price < x.numeric_price := by
          simpa [priceLE] using hxy
        by_cases hy : y.numeric_price = v
        · have hx : ¬ x.numeric_price = v := by omega
          simp [List.filter_cons, hy, hx, ih]
        · by_cases hx : x.numeric_price = v <;>
            simp [List.filter_cons, hy, hx, ih]

/-- Stability of the recommendation sort: for every price `v`, the
price-`v` items of the sorted list are exactly the price-`v` items of the
input, in the same order. -/
theorem filter_price_insertionSort (v : Int) (l : List Glasses) :
    (l.insertionSort priceLE).filter (fun g => g.numeric_price = v) =
      l.filter (fun g => g.numeric_price = v) := by
  induction l with
  | nil => rfl
  | cons x xs ih =>
      rw [List.insertionSort, filter_price_orderedInsert]
      by_cases hx : x.numeric_price = v <;> simp [List.filter_cons, hx, ih]

/-! ### Array identity model

To state the defensive-copy claim, arrays are modelled with an explicit
object identity: `ref` distinguishes the internal catalog array from
freshly allocated arrays (`[...xs]`, `filter`, `map` all allocate). -/

/-- A JS array object: identity plus contents. -/
structure JSArray (α : Type) where
  ref : Nat
  data : List α
deriving DecidableEq

/-- The catalog-owning part of a service instance: the internal
`_glassesData` array and a supply of fresh references. -/
structure ServiceHeap where
  glassesData : JSArray Glasses
  nextRef : Nat
deriving DecidableEq

/-- `getAllGlasses()` of the refactored service:
`return [...this._glassesData]` — a freshly allocated array with the same
contents. -/
def getAllGlasses (s : ServiceHeap) : JSArray Glasses × ServiceHeap :=
  (⟨s.nextRef, s.glassesData.data⟩, { s with nextRef := s.nextRef + 1 })

/-- The method names the legacy `GlassesService` class (`part_001`)
defines: `constructor`, `_initializeGlassesData`, `validateDCZipCode`,
`assessEligibility`, `getPersonalizedRecommendations`, `getAllGlasses`,
`getGlassesByPriceRange`, `getGlassesByFrameStyle`, `getPriceStatistics`,
`getFrameStyleStatistics` and `formatEligibilityForComponent` — in
particular neither `_createGlassesItem` nor `_initializeDCResources` is
defined. -/
def legacyDefinedMethods : List String :=
  ["constructor", "_initializeGlassesData", "validateDCZipCode",
   "assessEligibility", "getPersonalizedRecommendations", "getAllGlasses",
   "getGlassesByPriceRange", "getGlassesByFrameStyle", "getPriceStatistics",
   "getFrameStyleStatistics", "formatEligibilityForComponent"]

/-- The instance fields the legacy constructor assigns (part_001 lines
44-45): only `_glassesData` and `_dcResources`.  The assignments to
`dcResources` further down `_initializeGlassesData` sit after its
`return` and are unreachable, so the `glassesData` property that the
legacy accessors read is never assigned. -/
def legacyInstanceFields : List String := ["_glassesData", "_dcResources"]

/-- Construction of the legacy service: the constructor runs
`this._initializeGlassesData()`, whose first catalog entry is built with
`this._createGlassesItem(...)` (line 55); calling a method the class does
not define throws a TypeError, so the legacy singleton (line 429) is
never created and no legacy accessor ever executes. -/
def legacyConstruct : Except String Unit :=
  if legacyDefinedMethods.contains "_createGlassesItem" then .ok ()
  else .error "TypeError: this._createGlassesItem is not a function"

/-- `getGlassesByPriceRange(minPrice, maxPrice)` of the refactored
service: validate the range, then `filter` (which allocates a new
array). -/
def getGlassesByPriceRange (minPrice maxPrice : Int) (s : ServiceHeap) :
    Except String (JSArray Glasses × ServiceHeap) :=
  if minPrice < 0 ∨ maxPrice < minPrice then
    .error "Invalid price range provided"
  else
    .ok (⟨s.nextRef, s.glassesData.data.filter (fun glasses =>
            minPrice ≤ glasses.numeric_price ∧ glasses.numeric_price ≤ maxPrice)⟩,
          { s with nextRef := s.nextRef + 1 })

/-- `getGlassesByFrameStyle(frameStyle)` of the refactored service:
`'all'` delegates to `getAllGlasses`, otherwise `filter` by
case-insensitive style equality (a new array). -/
def getGlassesByFrameStyle (frameStyle : String) (s : ServiceHeap) :
    JSArray Glasses × ServiceHeap :=
  if frameStyle = "all" then getAllGlasses s
  else
    (⟨s.nextRef, s.glassesData.data.filter (fun glasses =>
        glasses.frame_style.toLower = frameStyle.toLower)⟩,
      { s with nextRef := s.nextRef + 1 })

/-- `getPersonalizedRecommendations` viewed through the array-identity
model: the returned `allRecommendations` array is the sorted copy produced
by `filter` (`sort` mutates only that fresh array), and
`topRecommendations` is a `slice` of it (another fresh array).  The
internal catalog is untouched. -/
def getRecommendationArrays (budgetMin budgetMax : Int) (s : ServiceHeap) :
    (JSArray Glasses × JSArray Glasses) × ServiceHeap :=
  let suitable := (s.glassesData.data.filter (fun glasses =>
      budgetMin ≤ glasses.numeric_price ∧
        glasses.numeric_price ≤ budgetMax)).insertionSort priceLE
  ((⟨s.nextRef, suitable⟩, ⟨s.nextRef + 1, suitable.take 10⟩),
    { s with nextRef := s.nextRef + 2 })

/-- `getPriceStatistics()` of the refactored service: aggregates over a
fresh `map` of the prices; the catalog is only read.  (The average is kept
as an unreduced rational pair `(sum, count)` since no claim depends on
it.) -/
def getPriceStatistics (s : ServiceHeap) :
    (Int × Int × (Int × Nat) × Nat × Nat × Nat × Nat) × ServiceHeap :=
  let prices := s.glassesData.data.map (fun glasses => glasses.numeric_price)
  ((prices.foldr min 0, prices.foldr max 0,
    (prices.foldr (· + ·) 0, prices.length), prices.length,
    (prices.filter (fun p => p ≤ 50)).length,
    (prices.filter (fun p => p ≤ 100)).length,
    (prices.filter (fun p => 50 < p ∧ p ≤ 200)).length), s)

/-- `getFrameStyleStatistics()` of the refactored service: counts per
frame style (returned as a counting function; the catalog is only
read). -/
def getFrameStyleStatistics (s : ServiceHeap) :
    (String → Nat) × ServiceHeap :=
  ((fun style => (s.glassesData.data.filter
      (fun glasses => glasses.frame_style = style)).length), s)

/-- The initial heap of a freshly constructed service holding `catalog` as
its internal array. -/
def initHeap (catalog : List Glasses) : ServiceHeap :=
  ⟨⟨0, catalog⟩, 1⟩

/-! ### Image service (`aiImageService.js`) -/

/-- Every allow-list member validates (members carry no surrounding
whitespace, so trimming is the identity on them). -/
theorem validateDCZipCode_of_mem :
    ∀ z ∈ VALID_DC_ZIP_CODES, validateDCZipCode (.str z) = true := by
  decide

/-- For household sizes in `[1, 15]`, the capped table lookup succeeds and
yields a positive limit. -/
theorem medicaidLimit_lookup (h : Int) (h1 : 1 ≤ h) (h15 : h ≤ 15) :
    ∃ L, MEDICAID_INCOME_LIMITS (min h 8) = some L ∧ 0 < L := by
  have hlo : 1 ≤ min h 8 := le_min h1 (by norm_num)
  have hhi : min h 8 ≤ 8 := min_le_right h 8
  set m := min h 8 with hm
  clear_value m
  interval_cases m <;> exact ⟨_, rfl, by norm_num⟩

/-- With in-range inputs and a valid zip code, validation collects no
errors. -/
theorem _validateInputs_eq_nil (h i : Int) (zip : String)
    (h1 : 1 ≤ h) (h15 : h ≤ 15) (hi : 0 ≤ i)
    (hz : validateDCZipCode (.str zip) = true) :
    _validateInputs h i zip = [] := by
  have hh : ¬(h < 1 ∨ h > 15) := by omega
  have hi0 : ¬ i < 0 := by omega
  simp [_validateInputs, hh, hi0, hz]

/-- Shape of a successful `assessEligibility` call on an empty cache: the
result is assembled from `_determineTier` and `_getRelevantResources` and
stored in the cache. -/
theorem assessEligibility_valid_run (h i : Int) (zip now : String)
    (hval : _validateInputs h i zip = []) :
    assessEligibility h i zip now [] =
      .ok (⟨(_determineTier i h).tier, (_determineTier i h).name,
            (_determineTier i h).budgetRange, h, i, zip,
            (_determineTier i h).medicaidLimit,
            _getRelevantResources (_determineTier i h).tier, now⟩,
          [(eligibilityCacheKey h i zip,
            ⟨(_determineTier i h).tier, (_determineTier i h).name,
             (_determineTier i h).budgetRange, h, i, zip,
             (_determineTier i h).medicaidLimit,
             _getRelevantResources (_determineTier i h).tier, now⟩)]) := by
  simp [assessEligibility, hval]

/-! ### Claim theorems -/

/-- C1: for every integer household size in `[1, 15]`, every non-negative
integer income and every allow-listed zip code, `assessEligibility`
succeeds and returns exactly one tier, chosen by first-match threshold
comparison against the income: `income ≤ limit` gives `medicaid_eligible`
with budget `[0, 50]`; `income ≤ 2 * limit` gives `low_income_gap` with
`[0, 100]`; `income ≤ 3 * limit` gives `moderate_income` with `[50, 200]`;
otherwise `any_income` with `[0, 500]`, where `limit` is the
`MEDICAID_INCOME_LIMITS` entry at index `min(householdSize, 8)`. -/
theorem C1_assessEligibility_tier (h i : Int) (zip now : String)
    (h1 : 1 ≤ h) (h15 : h ≤ 15) (hi : 0 ≤ i)
    (hz : zip ∈ VALID_DC_ZIP_CODES) :
    ∃ L, MEDICAID_INCOME_LIMITS (min h 8) = some L ∧
      ∃ e cache, assessEligibility h i zip now [] = .ok (e, cache) ∧
        e.medicaidLimit = some L ∧
        (i ≤ L → e.tier = "medicaid_eligible" ∧ e.budgetRange = (0, 50)) ∧
        (L < i → i ≤ 2 * L → e.tier = "low_income_gap" ∧ e.budgetRange = (0, 100)) ∧
        (2 * L < i → i ≤ 3 * L → e.tier = "moderate_income" ∧ e.budgetRange = (50, 200)) ∧
        (3 * L < i → e.tier = "any_income" ∧ e.budgetRange = (0, 500)) := by
  obtain ⟨L, hL, hLpos⟩ := medicaidLimit_lookup h h1 h15
  have hzv : validateDCZipCode (.str zip) = true := validateDCZipCode_of_mem zip hz
  have hval : _validateInputs h i zip = [] :=
    _validateInputs_eq_nil h i zip h1 h15 hi hzv
  refine ⟨L, hL, ?_⟩
  rw [assessEligibility_valid_run h i zip now hval]
  simp only [_determineTier, hL]
  split_ifs with hc1 hc2 hc3
  · exact ⟨_, _, rfl, rfl, fun _ => ⟨rfl, rfl⟩,
      fun hgt _ => absurd hc1 (by omega),
      fun hgt _ => absurd hc1 (by omega),
      fun hgt => absurd hc1 (by omega)⟩
  · exact ⟨_, _, rfl, rfl, fun hle => absurd hle (by omega),
      fun _ _ => ⟨rfl, rfl⟩,
      fun hgt _ => absurd hc2 (by omega),
      fun hgt => absurd hc2 (by omega)⟩
  · exact ⟨_, _, rfl, rfl, fun hle => absurd hle (by omega),
      fun _ hle => absurd hle (by omega),
      fun _ _ => ⟨rfl, rfl⟩,
      fun hgt => absurd hc3 (by omega)⟩
  · exact ⟨_, _, rfl, rfl, fun hle => absurd hle (by omega),
      fun _ hle => absurd hle (by omega),
      fun _ hle => absurd hle (by omega),
      fun _ => ⟨rfl, rfl⟩⟩

/-- C1 witness: the theorem applied at household size 4, income 43056 and
zip 20001. -/
theorem C1_witness :
    (1 : Int) ≤ 4 ∧ (4 : Int) ≤ 15 ∧ (0 : Int) ≤ 43056 ∧
      "20001" ∈ VALID_DC_ZIP_CODES ∧
      (∃ L, MEDICAID_INCOME_LIMITS (min (4 : Int) 8) = some L ∧
        ∃ e cache, assessEligibility 4 43056 "20001" "t1" [] = .ok (e, cache) ∧
          e.medicaidLimit = some L ∧
          ((43056 : Int) ≤ L → e.tier = "medicaid_eligible" ∧ e.budgetRange = (0, 50)) ∧
          (L < 43056 → (43056 : Int) ≤ 2 * L → e.tier = "low_income_gap" ∧ e.budgetRange = (0, 100)) ∧
          (2 * L < 43056 → (43056 : Int) ≤ 3 * L → e.tier = "moderate_income" ∧ e.budgetRange = (50, 200)) ∧
          (3 * L < 43056 → e.tier = "any_income" ∧ e.budgetRange = (0, 500))) :=
  ⟨by norm_num, by norm_num, by norm_num, by decide,
    C1_assessEligibility_tier 4 43056 "20001" "t1"
      (by norm_num) (by norm_num) (by norm_num) (by decide)⟩

/-- C2: for every catalog and every budget range with min ≤ max,
`getPersonalizedRecommendations` returns exactly the catalog items whose
price lies in the inclusive window, sorted ascending by price with ties in
catalog order (stable sort); in particular, on the catalog with prices
{25, 35, 45, 65, 85, 95, 145} and budget `[50, 100]` it returns exactly
the items priced 65, 85, 95, 95 in ascending order. -/
theorem C2_recommendations_filter_sort (catalog : List Glasses)
    (budgetMin budgetMax : Int) (tier tierName now : String)
    (hrange : budgetMin ≤ budgetMax) :
    ∃ r cache, getPersonalizedRecommendations catalog
        (some ⟨tier, tierName, some (budgetMin, budgetMax)⟩) now [] = .ok (r, cache) ∧
      List.Perm r.allRecommendations (catalog.filter (fun g =>
        budgetMin ≤ g.numeric_price ∧ g.numeric_price ≤ budgetMax)) ∧
      List.Sorted priceLE r.allRecommendations ∧
      (∀ v : Int, r.allRecommendations.filter (fun g => g.numeric_price = v) =
        (catalog.filter (fun g =>
          budgetMin ≤ g.numeric_price ∧ g.numeric_price ≤ budgetMax)).filter
            (fun g => g.numeric_price = v)) ∧
      (∃ r2 cache2, getPersonalizedRecommendations legacyCatalog
          (some ⟨"low_income_gap", "Low-Income Gap", some (50, 100)⟩) now [] =
            .ok (r2, cache2) ∧
        r2.allRecommendations.map Glasses.numeric_price = [65, 85, 95, 95] ∧
        r2.allRecommendations.filter (fun g =>
          g.numeric_price = 25 ∨ g.numeric_price = 35 ∨
            g.numeric_price = 45 ∨ g.numeric_price = 145) = []) := by
  refine ⟨_, _, rfl, ?_, ?_, ?_, ?_⟩
  · exact List.perm_insertionSort priceLE _
  · exact List.sorted_insertionSort priceLE _
  · exact fun v => filter_price_insertionSort v _
  · exact ⟨_, _, rfl, rfl, rfl⟩

/-- C2 witness: the theorem applied to the legacy catalog with budget
range `[50, 100]`. -/
theorem C2_witness :
    (50 : Int) ≤ 100 ∧
      ∃ r cache, getPersonalizedRecommendations legacyCatalog
          (some ⟨"low_income_gap", "Low-Income Gap", some (50, 100)⟩) "t2" [] =
            .ok (r, cache) ∧
        List.Perm r.allRecommendations (legacyCatalog.filter (fun g =>
          50 ≤ g.numeric_price ∧ g.numeric_price ≤ 100)) ∧
        List.Sorted priceLE r.allRecommendations ∧
        (∀ v : Int, r.allRecommendations.filter (fun g => g.numeric_price = v) =
          (legacyCatalog.filter (fun g =>
            50 ≤ g.numeric_price ∧ g.numeric_price ≤ 100)).filter
              (fun g => g.numeric_price = v)) ∧
        (∃ r2 cache2, getPersonalizedRecommendations legacyCatalog
            (some ⟨"low_income_gap", "Low-Income Gap", some (50, 100)⟩) "t2" [] =
              .ok (r2, cache2) ∧
          r2.allRecommendations.map Glasses.numeric_price = [65, 85, 95, 95] ∧
          r2.allRecommendations.filter (fun g =>
            g.numeric_price = 25 ∨ g.numeric_price = 35 ∨
              g.numeric_price = 45 ∨ g.numeric_price = 145) = []) :=
  ⟨by norm_num,
    C2_recommendations_filter_sort legacyCatalog 50 100
      "low_income_gap" "Low-Income Gap" "t2" (by norm_num)⟩

/-- C3 amended: for inputs with an out-of-range household size, a
negative income, or a zip code rejected by `validateDCZipCode` (that is,
whose whitespace-trimmed form is outside the allow-list — not raw
non-membership, since padded valid zips are accepted), `assessEligibility`
fails with the joined validation messages, and the message list contains
the message of every violated field (not merely the first); in particular
`assessEligibility(1, 100000, "99999")` fails with a message mentioning
the rejected zip code. -/
theorem C3_validation_aggregates (h i : Int) (zip now : String)
    (hbad : h < 1 ∨ 15 < h ∨ i < 0 ∨ validateDCZipCode (.str zip) = false) :
    (assessEligibility h i zip now [] =
      .error (String.intercalate "; " (_validateInputs h i zip))) ∧
    ((h < 1 ∨ 15 < h) → householdSizeError ∈ _validateInputs h i zip) ∧
    (i < 0 → annualIncomeError ∈ _validateInputs h i zip) ∧
    (validateDCZipCode (.str zip) = false →
      zipCodeError zip ∈ _validateInputs h i zip) ∧
    (∃ m, assessEligibility 1 100000 "99999" now [] = .error m ∧
      ∃ pre post, m.data = pre ++ "99999".data ++ post) := by
  have hmemh : (h < 1 ∨ 15 < h) → householdSizeError ∈ _validateInputs h i zip := by
    intro hh
    unfold _validateInputs
    rw [if_pos (by omega)]
    simp
  have hmemi : i < 0 → annualIncomeError ∈ _validateInputs h i zip := by
    intro hi0
    simp [_validateInputs, hi0]
  have hmemz : validateDCZipCode (.str zip) = false →
      zipCodeError zip ∈ _validateInputs h i zip := by
    intro hzf
    simp [_validateInputs, hzf]
  have hne : _validateInputs h i zip ≠ [] := by
    rcases hbad with hh | hh | hh | hh
    · exact List.ne_nil_of_mem (hmemh (Or.inl hh))
    · exact List.ne_nil_of_mem (hmemh (Or.inr hh))
    · exact List.ne_nil_of_mem (hmemi hh)
    · exact List.ne_nil_of_mem (hmemz hh)
  refine ⟨?_, hmemh, hmemi, hmemz, ?_⟩
  · simp [assessEligibility, hne]
  · exact ⟨_, rfl,
      "Invalid D.C. zip code: ".data,
      ". Must be a valid D.C. zip code (e.g., 20001, 20009, 20036)".data,
      by decide⟩

/-- C3 witness: the theorem applied at the spec example
`assessEligibility(1, 100000, "99999")`. -/
theorem C3_witness :
    ((1 : Int) < 1 ∨ (15 : Int) < 1 ∨ (100000 : Int) < 0 ∨
      validateDCZipCode (.str "99999") = false) ∧
    ((assessEligibility 1 100000 "99999" "t3" [] =
      .error (String.intercalate "; " (_validateInputs 1 100000 "99999"))) ∧
    (((1 : Int) < 1 ∨ (15 : Int) < 1) → householdSizeError ∈ _validateInputs 1 100000 "99999") ∧
    ((100000 : Int) < 0 → annualIncomeError ∈ _validateInputs 1 100000 "99999") ∧
    (validateDCZipCode (.str "99999") = false →
      zipCodeError "99999" ∈ _validateInputs 1 100000 "99999") ∧
    (∃ m, assessEligibility 1 100000 "99999" "t3" [] = .error m ∧
      ∃ pre post, m.data = pre ++ "99999".data ++ post)) :=
  ⟨by decide, C3_validation_aggregates 1 100000 "99999" "t3" (by decide)⟩

/-- C3 counterexample: the string `"  20009  "` is NOT a member of the
allow-list, yet `assessEligibility(1, 100000, "  20009  ")` does not
fail — `validateDCZipCode` trims before the membership test and accepts
it — so the claim as stated (every triple whose zip code is not in the
allow-list fails with a validation error) is false on the code. -/
theorem C3_counterexample :
    "  20009  " ∉ VALID_DC_ZIP_CODES ∧
    ∃ e cache, assessEligibility 1 100000 "  20009  " "t3c" [] =
      .ok (e, cache) := by
  exact ⟨by decide, _, _, rfl⟩

/-- The rank of the tier computed by `_determineTier` never decreases as
income grows. -/
theorem _determineTier_rank_monotone (h i1 i2 : Int) (hle : i1 ≤ i2) :
    tierRank (_determineTier i1 h).tier ≤ tierRank (_determineTier i2 h).tier := by
  rcases hL : MEDICAID_INCOME_LIMITS (min h 8) with _ | L
  · simp [_determineTier, hL]
  · simp only [_determineTier, hL]
    split_ifs <;> simp [tierRank] <;> omega

/-- C4: tier assignment is monotone in income: for a fixed valid household
size and valid zip code, the tier for the larger of two valid incomes is
never lower in the order medicaid_eligible < low_income_gap <
moderate_income < any_income. -/
theorem C4_tier_monotone (h i1 i2 : Int) (zip now : String)
    (h1 : 1 ≤ h) (h15 : h ≤ 15) (hi : 0 ≤ i1) (hle : i1 ≤ i2)
    (hz : zip ∈ VALID_DC_ZIP_CODES) :
    ∃ e1 c1 e2 c2,
      assessEligibility h i1 zip now [] = .ok (e1, c1) ∧
      assessEligibility h i2 zip now [] = .ok (e2, c2) ∧
      tierRank e1.tier ≤ tierRank e2.tier := by
  have hzv : validateDCZipCode (.str zip) = true := validateDCZipCode_of_mem zip hz
  have hv1 : _validateInputs h i1 zip = [] :=
    _validateInputs_eq_nil h i1 zip h1 h15 hi hzv
  have hv2 : _validateInputs h i2 zip = [] :=
    _validateInputs_eq_nil h i2 zip h1 h15 (by omega) hzv
  refine ⟨_, _, _, _, assessEligibility_valid_run h i1 zip now hv1,
    assessEligibility_valid_run h i2 zip now hv2, ?_⟩
  exact _determineTier_rank_monotone h i1 i2 hle

/-- C4 witness: the theorem applied at household size 4 and incomes 43056
and 43057 (the medicaid boundary and one dollar above it). -/
theorem C4_witness :
    (1 : Int) ≤ 4 ∧ (4 : Int) ≤ 15 ∧ (0 : Int) ≤ 43056 ∧
      (43056 : Int) ≤ 43057 ∧ "20009" ∈ VALID_DC_ZIP_CODES ∧
      ∃ e1 c1 e2 c2,
        assessEligibility 4 43056 "20009" "t4" [] = .ok (e1, c1) ∧
        assessEligibility 4 43057 "20009" "t4" [] = .ok (e2, c2) ∧
        tierRank e1.tier ≤ tierRank e2.tier :=
  ⟨by norm_num, by norm_num, by norm_num, by norm_num, by decide,
    C4_tier_monotone 4 43056 43057 "20009" "t4"
      (by norm_num) (by norm_num) (by norm_num) (by norm_num) (by decide)⟩

/-- C5: for every valid input, the resources of the `assessEligibility`
result are the medicaid-provider list prepended to the shared
discount-program plus local-store list exactly when the computed tier is
`medicaid_eligible`, and only the shared list otherwise; medicaid
providers appear if and only if the tier is `medicaid_eligible`. -/
theorem C5_resources_gated (h i : Int) (zip now : String)
    (h1 : 1 ≤ h) (h15 : h ≤ 15) (hi : 0 ≤ i)
    (hz : zip ∈ VALID_DC_ZIP_CODES) :
    ∃ e cache, assessEligibility h i zip now [] = .ok (e, cache) ∧
      e.resources = (if e.tier = "medicaid_eligible" then
          medicaid_providers ++ (discount_programs ++ local_stores)
        else discount_programs ++ local_stores) ∧
      ((∀ r ∈ medicaid_providers, r ∈ e.resources) ↔
        e.tier = "medicaid_eligible") := by
  have hzv : validateDCZipCode (.str zip) = true := validateDCZipCode_of_mem zip hz
  have hval : _validateInputs h i zip = [] :=
    _validateInputs_eq_nil h i zip h1 h15 hi hzv
  refine ⟨_, _, assessEligibility_valid_run h i zip now hval, ?_, ?_⟩
  · rfl
  · show (∀ r ∈ medicaid_providers,
        r ∈ _getRelevantResources (_determineTier i h).tier) ↔
        (_determineTier i h).tier = "medicaid_eligible"
    unfold _getRelevantResources
    by_cases ht : (_determineTier i h).tier = "medicaid_eligible"
    · rw [if_pos ht]
      exact ⟨fun _ => ht, fun _ r hr => List.mem_append_left _ hr⟩
    · rw [if_neg ht]
      constructor
      · intro hall
        exact absurd (hall (Resource.mk "DC Medicaid Vision Benefits"
          (some "Covers eye exams and glasses for Medicaid recipients")
          (some "1-800-635-1663") none (some "https://dhcf.dc.gov") none)
          (by decide)) (by decide)
      · intro habs
        exact absurd habs ht

/-- C5 witness: the theorem applied at a medicaid-eligible input. -/
theorem C5_witness :
    (1 : Int) ≤ 2 ∧ (2 : Int) ≤ 15 ∧ (0 : Int) ≤ 20000 ∧
      "20036" ∈ VALID_DC_ZIP_CODES ∧
      ∃ e cache, assessEligibility 2 20000 "20036" "t5" [] = .ok (e, cache) ∧
        e.resources = (if e.tier = "medicaid_eligible" then
            medicaid_providers ++ (discount_programs ++ local_stores)
          else discount_programs ++ local_stores) ∧
        ((∀ r ∈ medicaid_providers, r ∈ e.resources) ↔
          e.tier = "medicaid_eligible") :=
  ⟨by norm_num, by norm_num, by norm_num, by decide,
    C5_resources_gated 2 20000 "20036" "t5"
      (by norm_num) (by norm_num) (by norm_num) (by decide)⟩

/-- C6 counterexample: on an eligibility argument whose `budgetRange` is
present but malformed (min 100 > max 50), `getPersonalizedRecommendations`
does NOT fail: it succeeds and returns an empty recommendation list, so
the claim that every malformed budget range produces a `ServiceError` is
false on the code. -/
theorem C6_counterexample :
    ∃ r cache, getPersonalizedRecommendations refactoredCatalog
        (some ⟨"any_income", "Any Income", some (100, 50)⟩) "t6" [] =
          .ok (r, cache) ∧
      r.allRecommendations = [] ∧ r.totalOptions = 0 := by
  exact ⟨_, _, rfl, rfl, rfl⟩

/-- C6 amended: an absent eligibility object or an absent `budgetRange`
makes `getPersonalizedRecommendations` fail with the error
`Invalid eligibility data provided` and no partial result, while a present
but malformed range (max < min) succeeds and yields an empty
recommendation list. -/
theorem C6_budget_guard (catalog : List Glasses) (e : EligibilityArg)
    (now : String) (cache : List (String × Recommendations))
    (budgetMin budgetMax : Int) :
    (getPersonalizedRecommendations catalog none now cache =
      .error "Invalid eligibility data provided") ∧
    (e.budgetRange = none →
      getPersonalizedRecommendations catalog (some e) now cache =
        .error "Invalid eligibility data provided") ∧
    (e.budgetRange = some (budgetMin, budgetMax) → budgetMax < budgetMin →
      ∃ r cache2, getPersonalizedRecommendations catalog (some e) now [] =
          .ok (r, cache2) ∧ r.allRecommendations = [] ∧
          r.topRecommendations = [] ∧ r.totalOptions = 0) := by
  refine ⟨rfl, ?_, ?_⟩
  · intro hb
    simp [getPersonalizedRecommendations, hb]
  · intro hb hlt
    have hfil : catalog.filter (fun glasses =>
        budgetMin ≤ glasses.numeric_price ∧
          glasses.numeric_price ≤ budgetMax) = [] := by
      rw [List.filter_eq_nil_iff]
      intro g _
      simp only [decide_eq_true_eq, not_and, not_le]
      intro hge
      omega
    simp only [getPersonalizedRecommendations, hb, List.lookup_nil, hfil]
    exact ⟨_, _, rfl, rfl, rfl, rfl⟩

/-- C6 witness: the amended theorem applied to the refactored catalog and
a malformed range `[100, 50]`. -/
theorem C6_witness :
    ((getPersonalizedRecommendations refactoredCatalog none "t6b" [] =
      .error "Invalid eligibility data provided") ∧
    ((⟨"any_income", "Any Income", none⟩ : EligibilityArg).budgetRange = none →
      getPersonalizedRecommendations refactoredCatalog
          (some ⟨"any_income", "Any Income", none⟩) "t6b" [] =
        .error "Invalid eligibility data provided") ∧
    ((⟨"any_income", "Any Income", none⟩ : EligibilityArg).budgetRange =
        some (100, 50) → (50 : Int) < 100 →
      ∃ r cache2, getPersonalizedRecommendations refactoredCatalog
          (some ⟨"any_income", "Any Income", none⟩) "t6b" [] =
          .ok (r, cache2) ∧ r.allRecommendations = [] ∧
          r.topRecommendations = [] ∧ r.totalOptions = 0)) :=
  C6_budget_guard refactoredCatalog ⟨"any_income", "Any Income", none⟩
    "t6b" [] 100 50

/-- C7: the catalog is an invariant of every operation: no public
operation of the refactored service changes the internal catalog array,
and every read accessor returns a freshly allocated array — a defensive
copy, never the internal array object; the legacy duplicate class cannot
expose the catalog at all, since its construction fails on the missing
`_createGlassesItem` method (its accessors never execute, and the
`glassesData` property they would read is never assigned). -/
theorem C7_catalog_invariant (s : ServiceHeap)
    (hfresh : s.glassesData.ref < s.nextRef)
    (minPrice maxPrice budgetMin budgetMax : Int) (frameStyle : String) :
    ((getAllGlasses s).2.glassesData = s.glassesData ∧
      (getAllGlasses s).1.ref ≠ s.glassesData.ref ∧
      (getAllGlasses s).1.data = s.glassesData.data) ∧
    ((getGlassesByFrameStyle frameStyle s).2.glassesData = s.glassesData ∧
      (getGlassesByFrameStyle frameStyle s).1.ref ≠ s.glassesData.ref) ∧
    (∀ out s2, getGlassesByPriceRange minPrice maxPrice s = .ok (out, s2) →
      s2.glassesData = s.glassesData ∧ out.ref ≠ s.glassesData.ref) ∧
    ((getRecommendationArrays budgetMin budgetMax s).2.glassesData = s.glassesData ∧
      (getRecommendationArrays budgetMin budgetMax s).1.1.ref ≠ s.glassesData.ref ∧
      (getRecommendationArrays budgetMin budgetMax s).1.2.ref ≠ s.glassesData.ref) ∧
    ((getPriceStatistics s).2 = s) ∧
    ((getFrameStyleStatistics s).2 = s) ∧
    legacyConstruct =
      .error "TypeError: this._createGlassesItem is not a function" ∧
    legacyInstanceFields.contains "glassesData" = false := by
  refine ⟨⟨rfl, by show s.nextRef ≠ s.glassesData.ref; omega, rfl⟩, ?_, ?_,
    ⟨rfl, by show s.nextRef ≠ s.glassesData.ref; omega,
      by show s.nextRef + 1 ≠ s.glassesData.ref; omega⟩, rfl, rfl, rfl, rfl⟩
  · unfold getGlassesByFrameStyle
    split_ifs
    · exact ⟨rfl, by show s.nextRef ≠ s.glassesData.ref; omega⟩
    · exact ⟨rfl, by show s.nextRef ≠ s.glassesData.ref; omega⟩
  · intro out s2 hok
    unfold getGlassesByPriceRange at hok
    split_ifs at hok
    cases hok
    exact ⟨rfl, by show s.nextRef ≠ s.glassesData.ref; omega⟩

/-- C7 witness: the theorem applied to a freshly constructed refactored
service. -/
theorem C7_witness :
    (initHeap refactoredCatalog).glassesData.ref <
        (initHeap refactoredCatalog).nextRef ∧
    (((getAllGlasses (initHeap refactoredCatalog)).2.glassesData =
        (initHeap refactoredCatalog).glassesData ∧
      (getAllGlasses (initHeap refactoredCatalog)).1.ref ≠
        (initHeap refactoredCatalog).glassesData.ref ∧
      (getAllGlasses (initHeap refactoredCatalog)).1.data =
        (initHeap refactoredCatalog).glassesData.data) ∧
    ((getGlassesByFrameStyle "round" (initHeap refactoredCatalog)).2.glassesData =
        (initHeap refactoredCatalog).glassesData ∧
      (getGlassesByFrameStyle "round" (initHeap refactoredCatalog)).1.ref ≠
        (initHeap refactoredCatalog).glassesData.ref) ∧
    (∀ out s2, getGlassesByPriceRange 0 100 (initHeap refactoredCatalog) =
        .ok (out, s2) →
      s2.glassesData = (initHeap refactoredCatalog).glassesData ∧
        out.ref ≠ (initHeap refactoredCatalog).glassesData.ref) ∧
    ((getRecommendationArrays 0 100 (initHeap refactoredCatalog)).2.glassesData =
        (initHeap refactoredCatalog).glassesData ∧
      (getRecommendationArrays 0 100 (initHeap refactoredCatalog)).1.1.ref ≠
        (initHeap refactoredCatalog).glassesData.ref ∧
      (getRecommendationArrays 0 100 (initHeap refactoredCatalog)).1.2.ref ≠
        (initHeap refactoredCatalog).glassesData.ref) ∧
    ((getPriceStatistics (initHeap refactoredCatalog)).2 =
      initHeap refactoredCatalog) ∧
    ((getFrameStyleStatistics (initHeap refactoredCatalog)).2 =
      initHeap refactoredCatalog) ∧
    legacyConstruct =
      .error "TypeError: this._createGlassesItem is not a function" ∧
    legacyInstanceFields.contains "glassesData" = false) :=
  ⟨by decide,
    C7_catalog_invariant (initHeap refactoredCatalog) (by decide) 0 100 0 100 "round"⟩

/-- C9 counterexample: `assessEligibility` is not idempotent without the
cache: two calls with identical arguments on an empty cache (as after
`clearCache()`) at distinct timestamps return structurally different
results, differing in the `assessedAt` field. -/
theorem C9_counterexample :
    (assessEligibility 4 43056 "20001" "2024-01-01T00:00:00.000Z" []).toOption.map
        Prod.fst ≠
      (assessEligibility 4 43056 "20001" "2024-01-01T00:00:01.000Z" []).toOption.map
        Prod.fst := by
  decide

/-- C9 amended: for every valid input, a second call with identical
arguments returns the identical cached result when served from the cache
populated by the first call; without the cache, the two results agree on
every field except the `assessedAt` timestamp. -/
theorem C9_idempotence_cached (h i : Int) (zip t1 t2 : String)
    (h1 : 1 ≤ h) (h15 : h ≤ 15) (hi : 0 ≤ i)
    (hz : zip ∈ VALID_DC_ZIP_CODES) :
    ∃ e1 c1, assessEligibility h i zip t1 [] = .ok (e1, c1) ∧
      assessEligibility h i zip t2 c1 = .ok (e1, c1) ∧
      ∃ e2 c2, assessEligibility h i zip t2 [] = .ok (e2, c2) ∧
        e2 = { e1 with assessedAt := t2 } := by
  have hzv : validateDCZipCode (.str zip) = true := validateDCZipCode_of_mem zip hz
  have hval : _validateInputs h i zip = [] :=
    _validateInputs_eq_nil h i zip h1 h15 hi hzv
  refine ⟨_, _, assessEligibility_valid_run h i zip t1 hval, ?_,
    _, _, assessEligibility_valid_run h i zip t2 hval, rfl⟩
  simp [assessEligibility]

/-- C9 witness: the amended theorem applied at household size 4, income
43056, zip 20001 and two distinct timestamps. -/
theorem C9_witness :
    (1 : Int) ≤ 4 ∧ (4 : Int) ≤ 15 ∧ (0 : Int) ≤ 43056 ∧
      "20001" ∈ VALID_DC_ZIP_CODES ∧
      ∃ e1 c1, assessEligibility 4 43056 "20001" "2024-01-01T00:00:00.000Z" [] =
          .ok (e1, c1) ∧
        assessEligibility 4 43056 "20001" "2024-01-01T00:00:01.000Z" c1 =
          .ok (e1, c1) ∧
        ∃ e2 c2, assessEligibility 4 43056 "20001" "2024-01-01T00:00:01.000Z" [] =
            .ok (e2, c2) ∧
          e2 = { e1 with assessedAt := "2024-01-01T00:00:01.000Z" } :=
  ⟨by norm_num, by norm_num, by norm_num, by decide,
    C9_idempotence_cached 4 43056 "20001"
      "2024-01-01T00:00:00.000Z" "2024-01-01T00:00:01.000Z"
      (by norm_num) (by norm_num) (by norm_num) (by decide)⟩

/-- C10: `validateDCZipCode` is total and whitespace-tolerant: every
non-string input yields `false`, and a string is accepted exactly when its
whitespace-trimmed form is a member of the fixed 40-entry allow-list; in
particular a valid zip surrounded by whitespace is accepted. -/
theorem C10_validateDCZipCode_total (zip : String) :
    (validateDCZipCode (.str zip) = true ↔ jsTrim zip ∈ VALID_DC_ZIP_CODES) ∧
    validateDCZipCode .other = false ∧
    VALID_DC_ZIP_CODES.length = 40 ∧
    validateDCZipCode (.str "  20009  ") = true ∧
    validateDCZipCode (.str "99999") = false := by
  refine ⟨?_, rfl, rfl, by decide, by decide⟩
  simp [validateDCZipCode]

end GlassesFinder
